import Mathlib

/-!
Shallow embedding of the core of `growthic_reddit` (`src/main.py`):
the multi-account pool (`RedditCore`), the content submitter
(`RedditCore.post_content`), the scheduled-comment path
(`RedditCore.post_scheduled_comment`) and the comment scheduler
(`CommentScheduler`, backed by the third-party `schedule` library).

Python conventions used throughout the embedding:
* `os.getenv` results are `Option String`; Python truthiness of such a
  value is "present and non-empty".
* Python dicts keyed by strings are association lists where inserting an
  existing key updates the value in place (preserving its position) and
  inserting a fresh key appends.
* Exceptions that a function catches and converts to an error dict are
  modelled as constructors of an explicit result type; an exception that
  escapes the function is modelled by a dedicated `raised` constructor.
-/

namespace GrowthicReddit

/-- Python truthiness of an optional string (`None` and `""` are falsy). -/
def truthyS (v : Option String) : Bool :=
  match v with
  | some s => s ≠ ""
  | none => false

/-- Python truthiness of an optional int (`None` and `0` are falsy). -/
def truthyN (v : Option Nat) : Bool :=
  match v with
  | some n => n ≠ 0
  | none => false

/-- One candidate account configuration, as assembled by
`RedditCore.load_accounts_from_env` for a slot (each field the result of
`os.getenv` / secrets lookup, so possibly absent). -/
structure AccountConfig where
  client_id : Option String
  client_secret : Option String
  username : Option String
  password : Option String
  user_agent : Option String
  deriving Repr, DecidableEq

/-- `all(config.values())`: every one of the five fields is truthy. -/
def AccountConfig.complete (c : AccountConfig) : Bool :=
  truthyS c.client_id && truthyS c.client_secret && truthyS c.username &&
    truthyS c.password && truthyS c.user_agent

/-- The username key under which a complete config is stored
(`account_name = config["username"]`). -/
def AccountConfig.uname (c : AccountConfig) : String :=
  (c.username).getD ""

/-- Python dict assignment `d[k] = v` on an association list: update in
place when the key exists, append otherwise. -/
def dictInsert {α : Type} (d : List (String × α)) (k : String) (v : α) :
    List (String × α) :=
  if d.any (fun p => p.1 = k) then
    d.map (fun p => if p.1 = k then (k, v) else p)
  else
    d ++ [(k, v)]

/-- The keys of a Python dict, in iteration order. -/
def dictKeys {α : Type} (d : List (String × α)) : List String :=
  d.map Prod.fst

/-- Python `d.get(k)`: the value at the first entry with key `k`, or
`None`. -/
def dictGet {α : Type} (d : List (String × α)) (k : String) : Option α :=
  match d with
  | [] => none
  | p :: t => if p.1 = k then some p.2 else dictGet t k

/-- The slot loop of `RedditCore.load_accounts_from_env`: for each of the
(up to 30) indexed slots, store the config under `accounts[username]`
when all five fields are present; incomplete slots are skipped. -/
def buildAccounts (slots : List AccountConfig) :
    List (String × AccountConfig) :=
  slots.foldl
    (fun acc cfg =>
      if cfg.complete then dictInsert acc cfg.uname cfg else acc) []

/-- `RedditCore.load_accounts_from_env`: scan the indexed slots; if none
yields a complete config, fall back to the single legacy slot. -/
def load_accounts_from_env (slots : List AccountConfig)
    (legacy : AccountConfig) : List (String × AccountConfig) :=
  let accounts := buildAccounts slots
  if accounts.isEmpty then
    if legacy.complete then [(legacy.uname, legacy)] else []
  else accounts

theorem dictInsert_keys_nodup {α : Type} (d : List (String × α))
    (k : String) (v : α) (hd : (dictKeys d).Nodup) :
    (dictKeys (dictInsert d k v)).Nodup := by
  unfold dictInsert
  by_cases h : (d.any (fun p => p.1 = k)) = true
  · rw [if_pos h]
    have hkeys : dictKeys (d.map (fun p => if p.1 = k then (k, v) else p)) =
        dictKeys d := by
      unfold dictKeys
      rw [List.map_map]
      apply List.map_congr_left
      intro p _
      by_cases hpk : p.1 = k <;> simp [hpk]
    rw [hkeys]; exact hd
  · rw [if_neg h]
    unfold dictKeys
    rw [List.map_append]
    simp only [List.map_cons, List.map_nil]
    apply List.Nodup.append hd (List.nodup_singleton k)
    intro x hx hx'
    simp only [List.mem_singleton] at hx'
    subst hx'
    simp only [List.any_eq_true, decide_eq_true_eq, not_exists] at h
    unfold dictKeys at hx
    rcases List.mem_map.mp hx with ⟨p, hp, hpk⟩
    exact h p ⟨hp, hpk⟩

theorem buildAccounts_keys_nodup (slots : List AccountConfig) :
    (dictKeys (buildAccounts slots)).Nodup := by
  unfold buildAccounts
  suffices h : ∀ acc : List (String × AccountConfig), (dictKeys acc).Nodup →
      (dictKeys (slots.foldl
        (fun acc cfg =>
          if cfg.complete then dictInsert acc cfg.uname cfg else acc)
        acc)).Nodup by
    exact h [] (by simp [dictKeys])
  induction slots with
  | nil => intro acc hacc; simpa using hacc
  | cons c cs ih =>
    intro acc hacc
    simp only [List.foldl_cons]
    apply ih
    by_cases hc : c.complete
    · simp only [hc, if_true]
      exact dictInsert_keys_nodup acc c.uname c hacc
    · simpa [hc] using hacc

/-- Authenticated session handles (`praw.Reddit` instances) are opaque;
we model them as natural numbers. -/
abbrev Client := Nat

/-- The mutable state of a `RedditCore` instance:
`self.reddit_accounts : Dict[str, praw.Reddit]`,
`self.account_usernames : List[str]`, `self.is_loaded : bool`. -/
structure RedditCoreState where
  reddit_accounts : List (String × Client)
  account_usernames : List String
  is_loaded : Bool
  deriving Repr, DecidableEq

/-- `RedditCore.__init__`. -/
def RedditCoreState.init : RedditCoreState :=
  { reddit_accounts := [], account_usernames := [], is_loaded := false }

/-- The environment's answer to authenticating one config and probing
`reddit_client.user.me()`: `some client` when construction succeeds and
the liveness probe returns a truthy name (the account is then retained),
`none` when construction/probe raises or the probed name is falsy. -/
abbrev AuthOracle := AccountConfig → Option Client

/-- One iteration of the `for username, config in env_accounts.items()`
loop of `RedditCore.load_accounts`: on success, store the client under
the username and append the username to the ordinal list. -/
def loadStep (auth : AuthOracle) (s : RedditCoreState)
    (entry : String × AccountConfig) : RedditCoreState :=
  match auth entry.2 with
  | some client =>
      { s with
        reddit_accounts := dictInsert s.reddit_accounts entry.1 client,
        account_usernames := s.account_usernames ++ [entry.1] }
  | none => s

/-- Summary dict returned by `RedditCore.load_accounts` (the fields the
claims are about). -/
structure LoadResult where
  success : Bool
  total_accounts : Nat
  deriving Repr, DecidableEq

/-- `RedditCore.load_accounts`: iterate over the discovered accounts,
attempting each; mark the pool loaded iff at least one account loaded.
Note the loop mutates `self.reddit_accounts` / `self.account_usernames`
without clearing them first. -/
def load_accounts (auth : AuthOracle)
    (env_accounts : List (String × AccountConfig)) (s : RedditCoreState) :
    RedditCoreState × LoadResult :=
  if env_accounts.isEmpty then
    (s, { success := false, total_accounts := 0 })
  else
    let s' := env_accounts.foldl (loadStep auth) s
    let successCount :=
      s'.account_usernames.length - s.account_usernames.length
    if successCount = 0 then
      (s', { success := false, total_accounts := 0 })
    else
      ({ s' with is_loaded := true },
       { success := true, total_accounts := successCount })

/-- `RedditCore.get_reddit_client`: `None` unless the pool is loaded and
`1 <= account_id <= len(self.account_usernames)`; otherwise look the
username up in the client dict. -/
def get_reddit_client (s : RedditCoreState) (account_id : Nat) :
    Option Client :=
  if !s.is_loaded || account_id < 1 ||
      s.account_usernames.length < account_id then
    none
  else
    match s.account_usernames.get? (account_id - 1) with
    | some username => dictGet s.reddit_accounts username
    | none => none

/-- `RedditCore.get_account_username`. -/
def get_account_username (s : RedditCoreState) (account_id : Nat) :
    Option String :=
  if !s.is_loaded || account_id < 1 ||
      s.account_usernames.length < account_id then
    none
  else
    s.account_usernames.get? (account_id - 1)

/-- The usernames that load successfully, in discovery (iteration)
order — the sequence `load_accounts` appends to `account_usernames`. -/
def loadedUsernames (auth : AuthOracle)
    (env_accounts : List (String × AccountConfig)) : List String :=
  env_accounts.filterMap
    (fun entry => (auth entry.2).map (fun _ => entry.1))

/-- Structural character-list scan: does `pat` occur at the head of the
list? -/
def startsWithList : List Char → List Char → Bool
  | [], _ => true
  | _ :: _, [] => false
  | p :: ps, c :: cs => p = c && startsWithList ps cs

/-- The suffix following the first occurrence of `marker`, or `none`
when the marker does not occur (Python `marker in s` plus
`s.split(marker)[1]`-up-to-the-next-marker). -/
def afterMarker (marker : List Char) : List Char → Option (List Char)
  | [] => if startsWithList marker [] then some [] else none
  | c :: cs =>
      if startsWithList marker (c :: cs) then
        some ((c :: cs).drop marker.length)
      else afterMarker marker cs

/-- The prefix up to (excluding) the first `'/'`
(Python `segment.split("/")[0]`). -/
def takeUntilSlash : List Char → List Char
  | [] => []
  | c :: cs => if c = '/' then [] else c :: takeUntilSlash cs

/-- `"/comments/" in post_url` followed by
`post_url.split("/comments/")[1].split("/")[0]`
(`RedditCore.post_scheduled_comment`, lines 634-637): the post id is the
path segment right after the first `"/comments/"` marker; `none` models
the "Invalid Reddit post URL" branch. (Python's
`split(m)[1].split("/")[0]` equals taking the text after the first
occurrence of `m` up to the next `'/'`, because `m` itself starts with
`'/'`.) -/
def extract_post_id (post_url : String) : Option String :=
  match afterMarker "/comments/".toList post_url.toList with
  | some rest => some (String.mk (takeUntilSlash rest))
  | none => none

/-- Python `str.strip()`: remove leading and trailing whitespace
(structurally, so that it evaluates in the kernel). -/
def dropLeadingWS : List Char → List Char
  | [] => []
  | c :: cs => if c.isWhitespace then dropLeadingWS cs else c :: cs

def pyStrip (s : String) : String :=
  String.mk ((dropLeadingWS ((dropLeadingWS s.toList.reverse)).reverse))

/-- Outcome of `RedditCore.post_scheduled_comment`. `reply_called`
records whether the outbound `submission.reply(comment_text)` platform
call was issued (the platform call itself is modelled as succeeding;
the claims about this path concern whether and how often it is issued). -/
structure PSCResult where
  success : Bool
  error : Option String
  reply_called : Bool
  deriving Repr, DecidableEq

/-- `RedditCore.post_scheduled_comment`: reject blank text, resolve the
account, parse the target URL, then reply to the submission. -/
def post_scheduled_comment (s : RedditCoreState)
    (post_url comment_text : String) (account_id : Nat) : PSCResult :=
  if pyStrip comment_text = "" then
    { success := false, error := some "Comment text cannot be empty",
      reply_called := false }
  else
    match get_reddit_client s account_id with
    | none =>
        { success := false,
          error := some ("Invalid account_id: " ++ toString account_id),
          reply_called := false }
    | some _ =>
        match extract_post_id post_url with
        | none =>
            { success := false, error := some "Invalid Reddit post URL",
              reply_called := false }
        | some _ =>
            { success := true, error := none, reply_called := true }

/-! ### ContentSubmitter: `RedditCore.post_content` -/

/-- One item of a `praw.exceptions.RedditAPIException` batch. -/
structure APIItem where
  error_type : String
  deriving Repr, DecidableEq

/-- The platform-exception forms distinguished by the `except` chain of
`RedditCore.post_content` (lines 765-786), in the order the clauses
appear; `otherExn` is any other exception. -/
inductive RedditExn where
  | forbidden (msg : String)
  | tooLarge (msg : String)
  | invalidFlairTemplateID (msg : String)
  | redditAPIException (items : List APIItem)
  | otherExn (msg : String)
  deriving Repr, DecidableEq

/-- Result of one outbound subreddit submission call. -/
inductive PlatformOutcome where
  | ok (post_id permalink : String)
  | raise (e : RedditExn)
  deriving Repr, DecidableEq

/-- Which of the three submission paths was invoked. -/
inductive SubmitKind where
  | image
  | link
  | text
  deriving Repr, DecidableEq

/-- The `post_data` dict consumed by `RedditCore.post_content` (absent
keys are `none`; `.get` with a default is modelled by the `Bool`
fields). -/
structure PostData where
  account_id : Option Nat
  subreddit_name : Option String
  title : Option String
  body : Option String
  url : Option String
  image_path : Option String
  flair_id : Option String
  flair_text : Option String
  nsfw : Bool
  spoiler : Bool
  send_replies : Bool
  deriving Repr, DecidableEq

/-- The success payload of `post_content` (the fields the claims need). -/
structure PostDetails where
  post_id : String
  post_url : String
  post_type : String
  deriving Repr, DecidableEq

/-- Result of `post_content`: an error dict, a success dict, or — for an
exception the function re-raises — propagation to the caller. -/
inductive PostResult where
  | success (details : PostDetails)
  | errorResult (msg : String)
  | raised (e : RedditExn)
  deriving Repr, DecidableEq

/-- The success dict of `post_content`: id and permalink verbatim from
the platform response, `post_type` naming the path taken. -/
def mkSuccess (pid plink ptype : String) : PostResult :=
  .success
    { post_id := pid, post_url := "https://reddit.com" ++ plink,
      post_type := ptype }

/-- The `except` chain of `post_content`. Note the
`RedditAPIException` clause: it scans the batch for an
`INVALID_FLAIR_TEMPLATE_ID` item and otherwise executes a bare
`raise` — re-raising inside an `except` clause propagates out of the
whole `try` statement; the later `except Exception` clause of the same
`try` does NOT catch it, so the exception escapes to the caller. -/
def classifyPostExn (username : String) (subreddit_name : String)
    (e : RedditExn) : PostResult :=
  match e with
  | .forbidden _ =>
      .errorResult ("Forbidden: Account '" ++ username ++
        "' cannot post to r/" ++ subreddit_name)
  | .tooLarge msg => .errorResult ("Content too large: " ++ msg)
  | .invalidFlairTemplateID msg =>
      .errorResult ("Invalid flair ID: " ++ msg)
  | .redditAPIException items =>
      if items.any (fun it => it.error_type = "INVALID_FLAIR_TEMPLATE_ID")
      then .errorResult "Invalid flair ID"
      else .raised (.redditAPIException items)
  | .otherExn msg => .errorResult ("Failed to post: " ++ msg)

/-- `content_types = [1 if body else 0, 1 if url else 0,
1 if image_path else 0]; sum(content_types)`. -/
def countContentTypes (pd : PostData) : Nat :=
  (if truthyS pd.body then 1 else 0) + (if truthyS pd.url then 1 else 0) +
    (if truthyS pd.image_path then 1 else 0)

/-- `RedditCore.post_content`. `isfile` models `os.path.isfile`;
`platform` gives the outcome of the (single) outbound submission call on
each path. The second component of the result is the list of outbound
platform submission calls actually issued, in order. -/
def post_content (core : RedditCoreState) (isfile : String → Bool)
    (platform : SubmitKind → PlatformOutcome) (pd : PostData) :
    PostResult × List SubmitKind :=
  if !(truthyN pd.account_id && truthyS pd.subreddit_name &&
      truthyS pd.title) then
    (.errorResult "account_id, subreddit_name, and title are required", [])
  else
    match get_reddit_client core (pd.account_id.getD 0) with
    | none =>
        (.errorResult ("Invalid account_id: " ++
          toString (pd.account_id.getD 0) ++ ". Use 1-" ++
          toString core.account_usernames.length), [])
    | some _ =>
        if countContentTypes pd > 1 then
          (.errorResult
            "Provide only ONE content type: body (text), url (link), or image_path (image)",
           [])
        else
          let username :=
            (get_account_username core (pd.account_id.getD 0)).getD ""
          let subreddit_name := pd.subreddit_name.getD ""
          if truthyS pd.image_path then
            if !(isfile (pd.image_path.getD "")) then
              (.errorResult ("Image file not found: " ++
                pd.image_path.getD ""), [])
            else
              match platform .image with
              | .ok pid plink => (mkSuccess pid plink "image", [.image])
              | .raise e =>
                  (classifyPostExn username subreddit_name e, [.image])
          else if truthyS pd.url && !truthyS pd.body then
            match platform .link with
            | .ok pid plink => (mkSuccess pid plink "link", [.link])
            | .raise e =>
                (classifyPostExn username subreddit_name e, [.link])
          else
            match platform .text with
            | .ok pid plink => (mkSuccess pid plink "text", [.text])
            | .raise e =>
                (classifyPostExn username subreddit_name e, [.text])

/-! ### CommentScheduler and the `schedule` library

Wall-clock time is modelled in minutes since the epoch; a day is 1440
minutes. The third-party `schedule` library (per the spec's trigger
semantics, §4.3, matching `schedule.every().day.at(...)`): a registered
trigger fires at the time-of-day component of its `at` argument,
recurring every day at that clock time, and `schedule.run_pending()`
runs every trigger whose `next_run` has been reached and then advances
that trigger's `next_run` to the same clock time on the following day.
`post_job` is defunctionalized: the closure's free variables
(`post_url`, `comment_text`, `account_id`, `job_id`) are stored on the
trigger. -/

def minutesPerDay : Nat := 1440

/-- One entry of `CommentScheduler.scheduled_jobs`. -/
structure JobInfo where
  id : String
  post_url : String
  comment_text : String
  account_id : Nat
  scheduled_time : Nat
  status : String
  deriving Repr, DecidableEq

/-- One registered `schedule` job: tag, time-of-day (minutes), next
firing time, plus the captured `post_job` closure data. -/
structure Trigger where
  tag : String
  tod : Nat
  next_run : Nat
  post_url : String
  comment_text : String
  account_id : Nat
  deriving Repr, DecidableEq

/-- The scheduler's mutable state plus an instrumentation log
`submissions` of the outbound reply calls issued by fired jobs. -/
structure SchedState where
  scheduled_jobs : List JobInfo
  triggers : List Trigger
  submissions : List (String × String × Nat)
  running : Bool
  deriving Repr, DecidableEq

/-- `CommentScheduler.__init__`. -/
def SchedState.init : SchedState :=
  { scheduled_jobs := [], triggers := [], submissions := [],
    running := false }

/-- First firing time of `schedule.every().day.at(tod)` registered at
`now`: today at `tod` if that is still ahead, else tomorrow at `tod`. -/
def nextAt (now tod : Nat) : Nat :=
  let base := now - now % minutesPerDay + tod
  if now % minutesPerDay < tod then base else base + minutesPerDay

/-- After a trigger runs at `now`, the library reschedules it for the
next day at its time-of-day. -/
def rescheduleAfterRun (now tod : Nat) : Nat :=
  (now + minutesPerDay) - (now + minutesPerDay) % minutesPerDay + tod

/-- The job-list display truncation applied when storing
`comment_text` in `job_info`. -/
def truncate50 (text : String) : String :=
  if text.length > 50 then text.take 50 ++ "..." else text

/-- `job_id = f"comment_{len(self.scheduled_jobs)}_{int(scheduled_time.timestamp())}"`
(the timestamp is in seconds, i.e. 60 × the minute value). -/
def mkJobId (liveCount tsSeconds : Nat) : String :=
  "comment_" ++ toString liveCount ++ "_" ++ toString tsSeconds

/-- Result dict of `CommentScheduler.schedule_comment`. -/
structure ScheduleResult where
  success : Bool
  job_id : Option String
  deriving Repr, DecidableEq

/-- `CommentScheduler.schedule_comment`: build the job id from the
current live-job count and the fire timestamp, register a daily trigger
at the time-of-day of `scheduled_time`, append the tracking entry with
status `"pending"`, and start the scheduler thread if needed. No
validation of `comment_text` is performed here. -/
def schedule_comment (st : SchedState) (now : Nat)
    (post_url comment_text : String) (account_id : Nat)
    (scheduled_time : Nat) : SchedState × ScheduleResult :=
  let job_id := mkJobId st.scheduled_jobs.length (scheduled_time * 60)
  let tod := scheduled_time % minutesPerDay
  let tr : Trigger :=
    { tag := job_id, tod := tod, next_run := nextAt now tod,
      post_url := post_url, comment_text := comment_text,
      account_id := account_id }
  let job : JobInfo :=
    { id := job_id, post_url := post_url,
      comment_text := truncate50 comment_text, account_id := account_id,
      scheduled_time := scheduled_time, status := "pending" }
  ({ st with
      triggers := st.triggers ++ [tr],
      scheduled_jobs := st.scheduled_jobs ++ [job],
      running := true },
   { success := true, job_id := some job_id })

/-- The `post_job` closure of `schedule_comment`: issue the scheduled
comment via `RedditCore.post_scheduled_comment`, then remove the job
from the tracking list. It does NOT unregister the trigger. -/
def post_job (core : RedditCoreState) (st : SchedState) (tr : Trigger) :
    SchedState :=
  let result := post_scheduled_comment core tr.post_url tr.comment_text
    tr.account_id
  { st with
    submissions := st.submissions ++
      (if result.reply_called then
        [(tr.post_url, tr.comment_text, tr.account_id)]
      else []),
    scheduled_jobs := st.scheduled_jobs.filter (fun j => j.id ≠ tr.tag) }

/-- One wake-up of the worker loop (`schedule.run_pending()` inside
`CommentScheduler._run_scheduler`) at wall-clock time `now`: run every
due trigger and advance each one's `next_run` by a day. -/
def run_pending (core : RedditCoreState) (st : SchedState) (now : Nat) :
    SchedState :=
  let due := st.triggers.filter (fun tr => tr.next_run ≤ now)
  let st' := due.foldl (post_job core) st
  { st' with
    triggers := st'.triggers.map (fun tr =>
      if tr.next_run ≤ now then
        { tr with next_run := rescheduleAfterRun now tr.tod }
      else tr) }

/-- `CommentScheduler.cancel_job`: `schedule.clear(job_id)` removes the
triggers tagged with the id (and raises nothing when no trigger carries
the tag), the list comprehension removes the tracking entry, and the
function returns `True`; the `except` branch returning `False` is
unreachable because neither statement can raise. -/
def cancel_job (st : SchedState) (job_id : String) : SchedState × Bool :=
  ({ st with
      triggers := st.triggers.filter (fun tr => tr.tag ≠ job_id),
      scheduled_jobs := st.scheduled_jobs.filter (fun j => j.id ≠ job_id) },
   true)

/-- `CommentScheduler.get_scheduled_jobs` as a value: the contents of
the job list at call time. -/
def get_scheduled_jobs (st : SchedState) : List JobInfo :=
  st.scheduled_jobs

/-! ### Reference semantics of `get_scheduled_jobs`

`return self.scheduled_jobs` returns the list object itself under
CPython reference semantics, not a copy. We model the object layer
explicitly: a heap maps list addresses to list contents, the scheduler
object's `scheduled_jobs` attribute holds an address, and the method
returns that address. -/

/-- A reference to a Python list object. -/
structure ListRef where
  addr : Nat
  deriving Repr, DecidableEq

/-- A heap fragment holding `JobInfo` lists. -/
def JobHeap := Nat → List JobInfo

/-- A `CommentScheduler` object: its `scheduled_jobs` attribute is a
reference to a list object on the heap. -/
structure SchedulerObj where
  scheduled_jobs_ref : ListRef
  deriving Repr, DecidableEq

/-- `get_scheduled_jobs` under reference semantics:
`return self.scheduled_jobs` hands the caller the very reference stored
in the attribute. -/
def get_scheduled_jobs_ref (s : SchedulerObj) : ListRef :=
  s.scheduled_jobs_ref

def heapRead (h : JobHeap) (r : ListRef) : List JobInfo := h r.addr

def heapWrite (h : JobHeap) (r : ListRef) (l : List JobInfo) : JobHeap :=
  fun a => if a = r.addr then l else h a

/-- In-place `lst.append(j)` performed through a reference. -/
def refAppend (h : JobHeap) (r : ListRef) (j : JobInfo) : JobHeap :=
  heapWrite h r (heapRead h r ++ [j])

/-! ### Helper lemmas -/

/-- First-some choice on options (`a` wins when present). -/
def optOr {α : Type} (a b : Option α) : Option α :=
  match a with
  | some x => some x
  | none => b

theorem optOr_some {α : Type} (x : α) (b : Option α) :
    optOr (some x) b = some x := rfl

theorem optOr_none {α : Type} (b : Option α) : optOr none b = b := rfl

theorem dictInsert_of_not_mem {α : Type} (d : List (String × α))
    (k : String) (v : α) (h : ¬ k ∈ dictKeys d) :
    dictInsert d k v = d ++ [(k, v)] := by
  unfold dictInsert
  rw [if_neg]
  intro hc
  simp only [List.any_eq_true, decide_eq_true_eq] at hc
  obtain ⟨p, hp, he⟩ := hc
  exact h (by unfold dictKeys; exact List.mem_map.mpr ⟨p, hp, he⟩)

theorem dictGet_append {α : Type} (d e : List (String × α)) (k : String) :
    dictGet (d ++ e) k = optOr (dictGet d k) (dictGet e k) := by
  induction d with
  | nil => rfl
  | cons p t ih =>
    simp only [List.cons_append, dictGet]
    by_cases hp : p.1 = k
    · rw [if_pos hp, if_pos hp, optOr_some]
    · rw [if_neg hp, if_neg hp]
      exact ih

theorem dictGet_map_replace {α : Type} (d : List (String × α)) (k : String)
    (v : α) :
    dictGet (d.map (fun p => if p.1 = k then (k, v) else p)) k =
      (if (d.any (fun p => p.1 = k)) = true then some v else none) := by
  induction d with
  | nil => simp [dictGet]
  | cons p t ih =>
    simp only [List.map_cons, List.any_cons]
    by_cases hp : p.1 = k
    · rw [if_pos hp]
      simp [dictGet, hp]
    · rw [if_neg hp]
      simp only [dictGet, if_neg hp, ih]
      simp only [show decide (p.1 = k) = false by simp [hp], Bool.false_or]

theorem dictGet_map_replace_ne {α : Type} (d : List (String × α))
    (k k' : String) (v : α) (h : k' ≠ k) :
    dictGet (d.map (fun p => if p.1 = k then (k, v) else p)) k' =
      dictGet d k' := by
  induction d with
  | nil => rfl
  | cons p t ih =>
    simp only [List.map_cons]
    by_cases hp : p.1 = k
    · rw [if_pos hp]
      simp only [dictGet]
      rw [if_neg (fun he => h he.symm), if_neg (fun he => h (hp ▸ he).symm)]
      exact ih
    · rw [if_neg hp]
      simp only [dictGet]
      by_cases hp' : p.1 = k'
      · rw [if_pos hp', if_pos hp']
      · rw [if_neg hp', if_neg hp']
        exact ih

theorem dictInsert_get_self {α : Type} (d : List (String × α))
    (k : String) (v : α) :
    dictGet (dictInsert d k v) k = some v := by
  unfold dictInsert
  by_cases h : (d.any (fun p => p.1 = k)) = true
  · rw [if_pos h, dictGet_map_replace, if_pos h]
  · rw [if_neg h, dictGet_append]
    have hd : dictGet d k = none := by
      induction d with
      | nil => rfl
      | cons p t ih =>
        simp only [List.any_cons, Bool.or_eq_true, not_or] at h
        simp only [dictGet]
        rw [if_neg (by simpa using h.1)]
        exact ih (by simpa using h.2)
    rw [hd, optOr_none]
    simp [dictGet]

theorem dictInsert_get_ne {α : Type} (d : List (String × α))
    (k k' : String) (v : α) (h : k' ≠ k) :
    dictGet (dictInsert d k v) k' = dictGet d k' := by
  unfold dictInsert
  by_cases hany : (d.any (fun p => p.1 = k)) = true
  · rw [if_pos hany, dictGet_map_replace_ne _ _ _ _ h]
  · rw [if_neg hany, dictGet_append]
    have he : dictGet [(k, v)] k' = none := by
      simp only [dictGet]
      rw [if_neg (fun hk => h hk.symm)]
    rw [he]
    cases hd : dictGet d k'
    · rw [optOr_none]
    · rw [optOr_some]

theorem optOr_none_right {α : Type} (a : Option α) : optOr a none = a := by
  cases a <;> rfl

theorem optOr_getLast_cons {α : Type} (c : α) (L : List α) (X : Option α) :
    optOr ((c :: L).getLast?) X = optOr L.getLast? (some c) := by
  cases L with
  | nil => rfl
  | cons d t =>
    rw [List.getLast?_cons_cons]
    have hne : (d :: t).getLast? ≠ none := by
      intro hc
      have := List.getLast?_eq_none_iff.mp hc
      exact List.cons_ne_nil d t this
    cases h : (d :: t).getLast?
    · exact absurd h hne
    · rw [optOr_some, optOr_some]

/-- `completeWithName name` selects the complete slots stored under key
`name`. -/
def completeWithName (name : String) (c : AccountConfig) : Bool :=
  c.complete && decide (c.uname = name)

theorem buildAccounts_foldl_get (slots : List AccountConfig) :
    ∀ (acc : List (String × AccountConfig)) (name : String),
    dictGet (slots.foldl
      (fun acc cfg =>
        if cfg.complete then dictInsert acc cfg.uname cfg else acc) acc)
      name =
      optOr ((slots.filter (completeWithName name)).getLast?)
        (dictGet acc name) := by
  induction slots with
  | nil => intro acc name; rfl
  | cons c cs ih =>
    intro acc name
    simp only [List.foldl_cons]
    rw [ih]
    by_cases hcomp : c.complete = true
    · by_cases hname : c.uname = name
      · have hP : completeWithName name c = true := by
          simp [completeWithName, hcomp, hname]
        rw [List.filter_cons_of_pos hP, optOr_getLast_cons]
        rw [if_pos hcomp, hname, dictInsert_get_self]
      · have hP : ¬ completeWithName name c = true := by
          simp [completeWithName, hname]
        rw [List.filter_cons_of_neg hP]
        rw [if_pos hcomp, dictInsert_get_ne _ _ _ _ (fun he => hname he.symm)]
    · have hP : ¬ completeWithName name c = true := by
        simp [completeWithName, hcomp]
      rw [List.filter_cons_of_neg hP, if_neg hcomp]

/-- Last-wins characterization of the discovered-accounts dict: the
value stored under each username is the LAST complete slot carrying that
username. -/
theorem buildAccounts_get_lastWins (slots : List AccountConfig)
    (name : String) :
    dictGet (buildAccounts slots) name =
      (slots.filter (completeWithName name)).getLast? := by
  unfold buildAccounts
  rw [buildAccounts_foldl_get]
  exact optOr_none_right _

/-- The account/client pairs that authenticate successfully, in
discovery (iteration) order. -/
def loadedPairs (auth : AuthOracle)
    (env_accounts : List (String × AccountConfig)) :
    List (String × Client) :=
  env_accounts.filterMap
    (fun entry => (auth entry.2).map (fun c => (entry.1, c)))

theorem loadedPairs_map_fst (auth : AuthOracle)
    (env : List (String × AccountConfig)) :
    (loadedPairs auth env).map Prod.fst = loadedUsernames auth env := by
  induction env with
  | nil => rfl
  | cons e es ih =>
    unfold loadedPairs loadedUsernames at *
    cases h : auth e.2 <;> simp [List.filterMap_cons, h, ih]

theorem loadStep_none (auth : AuthOracle) (s : RedditCoreState)
    (e : String × AccountConfig) (h : auth e.2 = none) :
    loadStep auth s e = s := by
  unfold loadStep
  rw [h]

theorem loadStep_some (auth : AuthOracle) (s : RedditCoreState)
    (e : String × AccountConfig) (c : Client) (h : auth e.2 = some c) :
    loadStep auth s e =
      { s with
        reddit_accounts := dictInsert s.reddit_accounts e.1 c,
        account_usernames := s.account_usernames ++ [e.1] } := by
  unfold loadStep
  rw [h]

theorem foldl_loadStep_usernames (auth : AuthOracle)
    (env : List (String × AccountConfig)) :
    ∀ s : RedditCoreState,
    (env.foldl (loadStep auth) s).account_usernames =
      s.account_usernames ++ loadedUsernames auth env := by
  induction env with
  | nil => intro s; simp [loadedUsernames]
  | cons e es ih =>
    intro s
    simp only [List.foldl_cons]
    cases h : auth e.2
    · rw [loadStep_none auth s e h, ih]
      unfold loadedUsernames
      simp [List.filterMap_cons, h]
    · rw [loadStep_some auth s e _ h, ih]
      unfold loadedUsernames
      simp [List.filterMap_cons, h, List.append_assoc]

theorem foldl_loadStep_state (auth : AuthOracle)
    (env : List (String × AccountConfig)) :
    ∀ s : RedditCoreState,
    ((env.map Prod.fst).Nodup) →
    (∀ e ∈ env, ¬ e.1 ∈ dictKeys s.reddit_accounts) →
    env.foldl (loadStep auth) s =
      { reddit_accounts := s.reddit_accounts ++ loadedPairs auth env,
        account_usernames :=
          s.account_usernames ++ (loadedPairs auth env).map Prod.fst,
        is_loaded := s.is_loaded } := by
  induction env with
  | nil =>
    intro s _ _
    simp only [List.foldl_nil, loadedPairs, List.filterMap_nil,
      List.append_nil, List.map_nil]
  | cons e es ih =>
    intro s hnd hfresh
    simp only [List.map_cons, List.nodup_cons] at hnd
    simp only [List.foldl_cons]
    cases h : auth e.2 with
    | none =>
      rw [loadStep_none auth s e h]
      have hpairs : loadedPairs auth (e :: es) = loadedPairs auth es := by
        unfold loadedPairs
        simp [List.filterMap_cons, h]
      rw [hpairs]
      exact ih s hnd.2 (fun e' he' => hfresh e' (List.mem_cons_of_mem e he'))
    | some c =>
      have hfresh_e : ¬ e.1 ∈ dictKeys s.reddit_accounts :=
        hfresh e (List.mem_cons_self e es)
      rw [loadStep_some auth s e c h, dictInsert_of_not_mem _ _ _ hfresh_e]
      have hpairs : loadedPairs auth (e :: es) =
          (e.1, c) :: loadedPairs auth es := by
        unfold loadedPairs
        simp [List.filterMap_cons, h]
      rw [ih _ hnd.2]
      · rw [hpairs]
        simp [List.append_assoc]
      · intro e' he'
        unfold dictKeys
        simp only [List.map_append, List.mem_append, not_or]
        refine ⟨hfresh e' (List.mem_cons_of_mem e he'), ?_⟩
        simp only [List.map_cons, List.map_nil, List.mem_singleton]
        intro hc
        exact hnd.1 (hc ▸ List.mem_map_of_mem Prod.fst he')

theorem foldl_loadStep_is_loaded (auth : AuthOracle)
    (env : List (String × AccountConfig)) :
    ∀ s : RedditCoreState,
    (env.foldl (loadStep auth) s).is_loaded = s.is_loaded := by
  induction env with
  | nil => intro s; rfl
  | cons e es ih =>
    intro s
    simp only [List.foldl_cons]
    rw [ih]
    cases h : auth e.2
    · rw [loadStep_none auth s e h]
    · rw [loadStep_some auth s e _ h]

/-- `load_accounts` never clears previous state: the ordinal list after
any call is the previous list with this pass's successful usernames
appended. -/
theorem load_accounts_usernames_append (auth : AuthOracle)
    (env : List (String × AccountConfig)) (s : RedditCoreState) :
    (load_accounts auth env s).1.account_usernames =
      s.account_usernames ++ loadedUsernames auth env := by
  unfold load_accounts
  by_cases hemp : env.isEmpty = true
  · rw [if_pos hemp]
    have : env = [] := List.isEmpty_iff.mp hemp
    subst this
    simp [loadedUsernames]
  · rw [if_neg hemp]
    by_cases hz :
        (env.foldl (loadStep auth) s).account_usernames.length -
          s.account_usernames.length = 0
    · rw [if_pos hz]
      exact foldl_loadStep_usernames auth env s
    · rw [if_neg hz]
      exact foldl_loadStep_usernames auth env s

/-- Characterization of a successful first `load_accounts` on a fresh
core: the client dict and ordinal list are exactly the successfully
authenticated pairs in discovery order, and the pool is marked loaded. -/
theorem load_accounts_init_eq (auth : AuthOracle)
    (env : List (String × AccountConfig))
    (hnd : (env.map Prod.fst).Nodup)
    (hne : loadedPairs auth env ≠ []) :
    (load_accounts auth env RedditCoreState.init).1 =
      { reddit_accounts := loadedPairs auth env,
        account_usernames := (loadedPairs auth env).map Prod.fst,
        is_loaded := true } := by
  have henv : env ≠ [] := by
    intro hc
    subst hc
    exact hne rfl
  have hstate := foldl_loadStep_state auth env RedditCoreState.init hnd
    (fun e _ hc => by simp [RedditCoreState.init, dictKeys] at hc)
  unfold load_accounts
  rw [if_neg (by simpa [List.isEmpty_iff] using henv)]
  rw [hstate]
  have hlen : ((loadedPairs auth env).map Prod.fst).length ≠ 0 := by
    simp only [List.length_map, ne_eq, List.length_eq_zero]
    exact hne
  rw [if_neg (by simpa [RedditCoreState.init] using hlen)]
  simp [RedditCoreState.init]

/-- The keys of `loadedPairs` form a sublist of the environment's keys
(so they are distinct whenever the environment's keys are). -/
theorem loadedPairs_keys_sublist (auth : AuthOracle)
    (env : List (String × AccountConfig)) :
    ((loadedPairs auth env).map Prod.fst).Sublist (env.map Prod.fst) := by
  induction env with
  | nil => exact List.Sublist.refl _
  | cons e es ih =>
    unfold loadedPairs at *
    cases h : auth e.2
    · simp only [List.filterMap_cons, h, List.map_cons]
      exact List.Sublist.cons _ ih
    · simp only [List.filterMap_cons, h, List.map_cons]
      exact List.Sublist.cons₂ _ ih

/-- In an association list with distinct keys, `dictGet` at the key of
the `i`-th entry returns that entry's value. -/
theorem dictGet_get_of_nodup {α : Type} (l : List (String × α))
    (hl : (l.map Prod.fst).Nodup) :
    ∀ (i : Nat) (hi : i < l.length),
      dictGet l (l.get ⟨i, hi⟩).1 = some (l.get ⟨i, hi⟩).2 := by
  induction l with
  | nil => intro i hi; exact absurd hi (Nat.not_lt_zero i)
  | cons p t ih =>
    intro i hi
    simp only [List.map_cons, List.nodup_cons] at hl
    cases i with
    | zero =>
      simp [List.get, dictGet]
    | succ j =>
      have hj : j < t.length := Nat.lt_of_succ_lt_succ hi
      have hget : (p :: t).get ⟨j + 1, hi⟩ = t.get ⟨j, hj⟩ := rfl
      rw [hget]
      simp only [dictGet]
      rw [if_neg]
      · exact ih hl.2 j hj
      · intro hc
        exact hl.1 (hc ▸ List.mem_map_of_mem Prod.fst (t.get_mem j hj))

/-! ### Concrete fixtures -/

/-- A core with one loaded account `alice` (ordinal 1). -/
def demoCore : RedditCoreState :=
  { reddit_accounts := [("alice", 1)], account_usernames := ["alice"],
    is_loaded := true }

def demoUrl : String :=
  "https://www.reddit.com/r/test/comments/abc1/some_post/"

def cfgAlice : AccountConfig :=
  { client_id := some "id", client_secret := some "sec",
    username := some "alice", password := some "pw",
    user_agent := some "ua" }

/-- A second complete config carrying the same username as `cfgAlice`. -/
def cfgAlice2 : AccountConfig :=
  { client_id := some "id2", client_secret := some "sec2",
    username := some "alice", password := some "pw2",
    user_agent := some "ua2" }

def cfgBob : AccountConfig :=
  { client_id := some "idb", client_secret := some "secb",
    username := some "bob", password := some "pwb",
    user_agent := some "uab" }

def emptyConfig : AccountConfig :=
  { client_id := none, client_secret := none, username := none,
    password := none, user_agent := none }

/-- An environment in which every authentication attempt succeeds. -/
def authOne : AuthOracle := fun _ => some 1

def envAB : List (String × AccountConfig) :=
  [("alice", cfgAlice), ("bob", cfgBob)]

def authAB : AuthOracle := fun c =>
  if c.uname = "alice" then some 1
  else if c.uname = "bob" then some 2 else none

/-- Scheduler state after scheduling one comment at t=0 for 10:00 of the
same day (fire minute 600, timestamp 36000 s). -/
def demoSched1 : SchedState :=
  (schedule_comment SchedState.init 0 demoUrl "hello" 1 600).1

/-- The state after the worker tick at the fire time (minute 600). -/
def demoFired1 : SchedState := run_pending demoCore demoSched1 600

/-- A text post request (body populated). -/
def demoTextPd : PostData :=
  { account_id := some 1, subreddit_name := some "test", title := some "t",
    body := some "hi", url := none, image_path := none, flair_id := none,
    flair_text := none, nsfw := false, spoiler := false,
    send_replies := true }

/-- A request populating both `body` and `url`. -/
def demoAmbPd : PostData :=
  { account_id := some 1, subreddit_name := some "test", title := some "t",
    body := some "b", url := some "https://x", image_path := none,
    flair_id := none, flair_text := none, nsfw := false, spoiler := false,
    send_replies := true }

/-- A `RedditAPIException` batch with no invalid-flair item. -/
def demoApiItems : List APIItem := [{ error_type := "SUBREDDIT_NOTALLOWED" }]

def demoSchedObj : SchedulerObj := { scheduled_jobs_ref := { addr := 0 } }

def emptyHeap : JobHeap := fun _ => []

def demoJob : JobInfo :=
  { id := "j", post_url := "u", comment_text := "c", account_id := 1,
    scheduled_time := 0, status := "pending" }

/-! ### Claim theorems -/

/-- C1: the exactly-once guarantee fails in the code. In the concrete
run below, a job scheduled at t=0 for minute 600 fires at the first
worker tick at or after its fire time (one reply submission) and is
deleted from the live job set — but `post_job` never unregisters the
daily trigger, so the tick at the same clock time the next day (minute
2040) executes the job again: two submissions, and the trigger is still
registered afterwards. -/
theorem C1_scheduled_comment_fires_again_next_day :
    demoFired1.scheduled_jobs = [] ∧
    demoFired1.submissions = [(demoUrl, "hello", 1)] ∧
    (run_pending demoCore demoFired1 2040).submissions =
      [(demoUrl, "hello", 1), (demoUrl, "hello", 1)] ∧
    (run_pending demoCore demoFired1 2040).triggers.length = 1 := by
  refine ⟨rfl, ?_, ?_, rfl⟩ <;> decide

/-- C2 counterexample: `schedule_comment` called with empty comment
text succeeds at scheduling time — a job id is allocated, a pending job
is stored and a trigger is registered — contradicting the claim that
empty text is rejected with no job id, no stored job and no trigger. -/
theorem C2_cex_empty_text_is_scheduled :
    (schedule_comment SchedState.init 0 demoUrl "" 1 600).2.success = true ∧
    (schedule_comment SchedState.init 0 demoUrl "" 1 600).2.job_id =
      some "comment_0_36000" ∧
    (schedule_comment SchedState.init 0 demoUrl "" 1 600).1.scheduled_jobs.length = 1 ∧
    (schedule_comment SchedState.init 0 demoUrl "" 1 600).1.triggers.length = 1 :=
  ⟨rfl, rfl, rfl, rfl⟩

/-- C2 (amended): `schedule_comment` performs no emptiness validation —
every call, empty text included, succeeds, allocates a job id, stores a
pending job and registers a trigger; blank text is rejected only at fire
time by `post_scheduled_comment`, which returns the "Comment text cannot
be empty" error and issues no reply call. -/
theorem C2_empty_text_rejected_only_at_fire_time (text : String)
    (h : pyStrip text = "") :
    (∀ (st : SchedState) (now : Nat) (url : String) (acct t : Nat),
      (schedule_comment st now url text acct t).2.success = true ∧
      (schedule_comment st now url text acct t).2.job_id =
        some (mkJobId st.scheduled_jobs.length (t * 60)) ∧
      (schedule_comment st now url text acct t).1.scheduled_jobs.length =
        st.scheduled_jobs.length + 1 ∧
      (schedule_comment st now url text acct t).1.triggers.length =
        st.triggers.length + 1) ∧
    (∀ (core : RedditCoreState) (url : String) (acct : Nat),
      post_scheduled_comment core url text acct =
        { success := false, error := some "Comment text cannot be empty",
          reply_called := false }) := by
  constructor
  · intro st now url acct t
    refine ⟨rfl, rfl, ?_, ?_⟩ <;> simp [schedule_comment]
  · intro core url acct
    unfold post_scheduled_comment
    rw [if_pos h]

theorem C2_witness :
    pyStrip "" = "" ∧
    post_scheduled_comment demoCore demoUrl "" 1 =
      { success := false, error := some "Comment text cannot be empty",
        reply_called := false } :=
  ⟨by decide, (C2_empty_text_rejected_only_at_fire_time "" (by decide)).2 demoCore demoUrl 1⟩

/-- C3 counterexample: cancelling a job id that was never issued returns
`true` (the scheduler state is empty, so no job with that id exists in
pending state), contradicting the claimed "true iff a pending job with
that id exists". -/
theorem C3_cex_cancel_unknown_id_returns_true :
    (cancel_job SchedState.init "never_issued").2 = true ∧
    SchedState.init.scheduled_jobs = [] :=
  ⟨rfl, rfl⟩

/-- C3 (amended): `cancel_job` always returns `true` regardless of
whether a pending job with the given id exists (`schedule.clear` does
not raise for an unknown tag and the list comprehension cannot raise);
it does remove the job record and the trigger registration whenever they
are present. -/
theorem C3_cancel_always_true_and_removes :
    ∀ (st : SchedState) (job_id : String),
      (cancel_job st job_id).2 = true ∧
      (cancel_job st job_id).1.scheduled_jobs =
        st.scheduled_jobs.filter (fun j => j.id ≠ job_id) ∧
      (cancel_job st job_id).1.triggers =
        st.triggers.filter (fun tr => tr.tag ≠ job_id) :=
  fun _ _ => ⟨rfl, rfl, rfl⟩

/-- C4: the error taxonomy of `post_content` is not total. A
`RedditAPIException` batch containing no `INVALID_FLAIR_TEMPLATE_ID`
item reaches the bare `raise` inside the `RedditAPIException` handler;
re-raising inside an `except` clause is not caught by the sibling
`except Exception` clause of the same `try`, so the exception propagates
to the caller unclassified (contradicting the code's own "fall through
for other API errors" comment). -/
theorem C4_generic_api_exception_escapes :
    post_content demoCore (fun _ => true)
      (fun _ => PlatformOutcome.raise (RedditExn.redditAPIException demoApiItems))
      demoTextPd =
    (PostResult.raised (RedditExn.redditAPIException demoApiItems),
     [SubmitKind.text]) :=
  rfl

/-- C5 counterexample: with one account `alice` that always
authenticates, a first `load_accounts` on a fresh core followed by a
second `load_accounts` leaves `account_usernames = ["alice", "alice"]`,
while the second discovery/authentication pass alone produces exactly
`["alice"]` — so the second load does not replace prior state; the first
load's entry is left over and the username is duplicated. -/
theorem C5_cex_second_load_accumulates :
    (load_accounts authOne [("alice", cfgAlice)]
      (load_accounts authOne [("alice", cfgAlice)]
        RedditCoreState.init).1).1.account_usernames =
      ["alice", "alice"] ∧
    loadedUsernames authOne [("alice", cfgAlice)] = ["alice"] ∧
    ("alice" :: "alice" :: []) ≠ ("alice" :: []) :=
  ⟨rfl, rfl, by simp⟩

/-- C5 (amended): a repeated `load_accounts` accumulates instead of
replacing: for every starting state, the ordinal list afterwards is the
previous list with the new pass's successfully loaded usernames appended
(nothing is cleared first), so entries of an earlier load persist and
usernames loaded in both passes appear twice. -/
theorem C5_load_accounts_appends_to_prior_state :
    ∀ (auth : AuthOracle) (env : List (String × AccountConfig))
      (s : RedditCoreState),
      (load_accounts auth env s).1.account_usernames =
        s.account_usernames ++ loadedUsernames auth env := by
  intro auth env s
  unfold load_accounts
  by_cases hemp : env.isEmpty = true
  · rw [if_pos hemp]
    have henv : env = [] := List.isEmpty_iff.mp hemp
    subst henv
    simp [loadedUsernames]
  · rw [if_neg hemp]
    by_cases hz :
        (env.foldl (loadStep auth) s).account_usernames.length -
          s.account_usernames.length = 0
    · rw [if_pos hz]
      exact foldl_loadStep_usernames auth env s
    · rw [if_neg hz]
      exact foldl_loadStep_usernames auth env s

/-- C6: whenever more than one of {body, url, image_path} is populated,
`post_content` issues no platform submission call and returns an error;
when the preceding preconditions pass (required fields present, ordinal
resolvable) the error is exactly the ambiguous-content-type one. -/
theorem C6_ambiguous_content_no_network_call (core : RedditCoreState)
    (isfile : String → Bool) (platform : SubmitKind → PlatformOutcome)
    (pd : PostData) (h : 1 < countContentTypes pd) :
    (post_content core isfile platform pd).2 = [] ∧
    (∃ msg, (post_content core isfile platform pd).1 =
      PostResult.errorResult msg) ∧
    ((truthyN pd.account_id && truthyS pd.subreddit_name &&
        truthyS pd.title) = true →
      ∀ c, get_reddit_client core (pd.account_id.getD 0) = some c →
      (post_content core isfile platform pd).1 =
        PostResult.errorResult
          "Provide only ONE content type: body (text), url (link), or image_path (image)") := by
  unfold post_content
  by_cases h1 : (truthyN pd.account_id && truthyS pd.subreddit_name &&
      truthyS pd.title) = true
  · rw [h1]
    simp only [Bool.not_true]
    rw [if_neg Bool.false_ne_true]
    cases hc : get_reddit_client core (pd.account_id.getD 0) with
    | none =>
        refine ⟨rfl, ⟨_, rfl⟩, fun _ c hc' => ?_⟩
        cases hc'
    | some c =>
        rw [if_pos h]
        exact ⟨rfl, ⟨_, rfl⟩, fun _ _ _ => rfl⟩
  · have h1' : (truthyN pd.account_id && truthyS pd.subreddit_name &&
        truthyS pd.title) = false := Bool.eq_false_iff.mpr h1
    rw [h1', Bool.not_false, if_pos rfl]
    exact ⟨rfl, ⟨_, rfl⟩, fun hcontra => absurd hcontra Bool.false_ne_true⟩

theorem C6_witness :
    1 < countContentTypes demoAmbPd ∧
    (post_content demoCore (fun _ => false)
      (fun _ => PlatformOutcome.ok "id" "/r/p/x") demoAmbPd).1 =
      PostResult.errorResult
        "Provide only ONE content type: body (text), url (link), or image_path (image)" :=
  ⟨by decide,
   (C6_ambiguous_content_no_network_call demoCore (fun _ => false)
      (fun _ => PlatformOutcome.ok "id" "/r/p/x") demoAmbPd
      (by decide)).2.2 (by decide) 1 rfl⟩

/-- C7: after a successful load on a fresh core (distinct discovered
usernames, at least one success), resolving ordinal `k ∈ [1, n]` returns
the `k`-th successfully loaded username and its client in discovery
order; ordinals `0` and `n+1` resolve to `None`; and on any not-ready
pool both resolvers return the typed `None` failure for every ordinal
(no exception path exists). -/
theorem C7_resolve_by_ordinal (auth : AuthOracle)
    (env : List (String × AccountConfig)) (k : Nat)
    (hnd : (env.map Prod.fst).Nodup)
    (hne : loadedPairs auth env ≠ [])
    (hk1 : 1 ≤ k) (hk2 : k ≤ (loadedPairs auth env).length) :
    get_account_username (load_accounts auth env RedditCoreState.init).1 k =
      ((loadedPairs auth env).get? (k - 1)).map Prod.fst ∧
    get_reddit_client (load_accounts auth env RedditCoreState.init).1 k =
      ((loadedPairs auth env).get? (k - 1)).map Prod.snd ∧
    get_reddit_client (load_accounts auth env RedditCoreState.init).1 0 =
      none ∧
    get_account_username (load_accounts auth env RedditCoreState.init).1 0 =
      none ∧
    get_reddit_client (load_accounts auth env RedditCoreState.init).1
      ((loadedPairs auth env).length + 1) = none ∧
    get_account_username (load_accounts auth env RedditCoreState.init).1
      ((loadedPairs auth env).length + 1) = none ∧
    (∀ (t : RedditCoreState) (j : Nat), t.is_loaded = false →
      get_reddit_client t j = none ∧ get_account_username t j = none) := by
  rw [load_accounts_init_eq auth env hnd hne]
  have hk0 : k ≠ 0 := Nat.one_le_iff_ne_zero.mp hk1
  have hk' : k - 1 < (loadedPairs auth env).length :=
    Nat.lt_of_lt_of_le (Nat.pred_lt hk0) hk2
  have hnodup : ((loadedPairs auth env).map Prod.fst).Nodup :=
    (loadedPairs_keys_sublist auth env).nodup hnd
  have hget : (loadedPairs auth env).get? (k - 1) =
      some ((loadedPairs auth env).get ⟨k - 1, hk'⟩) :=
    List.get?_eq_get hk'
  have hcond : ∀ b : Bool, (!(true : Bool) ||
      decide (k < 1) || b) = false ∨ True := fun _ => Or.inr trivial
  refine ⟨?_, ?_, ?_, ?_, ?_, ?_, ?_⟩
  · unfold get_account_username
    rw [if_neg]
    · show ((loadedPairs auth env).map Prod.fst).get? (k - 1) =
        ((loadedPairs auth env).get? (k - 1)).map Prod.fst
      rw [List.get?_map]
    · simp only [Bool.not_true, Bool.false_or, Bool.or_eq_true,
        decide_eq_true_eq, List.length_map]
      push_neg
      exact ⟨hk1, hk2⟩
  · unfold get_reddit_client
    rw [if_neg]
    · have hmap : ((loadedPairs auth env).map Prod.fst).get? (k - 1) =
          some (((loadedPairs auth env).get ⟨k - 1, hk'⟩).1) := by
        rw [List.get?_map, hget]
        rfl
      show (match ((loadedPairs auth env).map Prod.fst).get? (k - 1) with
        | some username => dictGet (loadedPairs auth env) username
        | none => none) =
        ((loadedPairs auth env).get? (k - 1)).map Prod.snd
      rw [hmap]
      show dictGet (loadedPairs auth env)
          ((loadedPairs auth env).get ⟨k - 1, hk'⟩).1 =
        ((loadedPairs auth env).get? (k - 1)).map Prod.snd
      rw [dictGet_get_of_nodup _ hnodup (k - 1) hk', hget]
      rfl
    · simp only [Bool.not_true, Bool.false_or, Bool.or_eq_true,
        decide_eq_true_eq, List.length_map]
      push_neg
      exact ⟨hk1, hk2⟩
  · unfold get_reddit_client
    rw [if_pos (by simp)]
  · unfold get_account_username
    rw [if_pos (by simp)]
  · unfold get_reddit_client
    rw [if_pos (by simp [Nat.lt_succ_self])]
  · unfold get_account_username
    rw [if_pos (by simp [Nat.lt_succ_self])]
  · intro t j ht
    constructor
    · unfold get_reddit_client
      rw [if_pos (by simp [ht])]
    · unfold get_account_username
      rw [if_pos (by simp [ht])]

theorem C7_witness :
    (envAB.map Prod.fst).Nodup ∧ loadedPairs authAB envAB ≠ [] ∧
    1 ≤ 2 ∧ 2 ≤ (loadedPairs authAB envAB).length ∧
    get_account_username (load_accounts authAB envAB
      RedditCoreState.init).1 2 =
      ((loadedPairs authAB envAB).get? 1).map Prod.fst :=
  ⟨by decide, by decide, by decide, by decide,
   (C7_resolve_by_ordinal authAB envAB 2 (by decide) (by decide)
      (by decide) (by decide)).1⟩

/-- C8 counterexample: `get_scheduled_jobs` returns the very reference
stored in `self.scheduled_jobs`. Appending through the returned
reference changes what the scheduler's own attribute subsequently reads
(from `[]` to `[demoJob]`), so the returned sequence aliases the live
mutable job list — contradicting the claimed copy-out snapshot. -/
theorem C8_cex_returned_sequence_aliases_live_list :
    heapRead (refAppend emptyHeap (get_scheduled_jobs_ref demoSchedObj)
        demoJob) demoSchedObj.scheduled_jobs_ref = [demoJob] ∧
    heapRead emptyHeap demoSchedObj.scheduled_jobs_ref = [] :=
  ⟨rfl, rfl⟩

/-- C8 (amended): `get_scheduled_jobs` returns the live mutable job
list itself (the reference held in the attribute, with no copy), so a
mutation performed through the returned reference is visible in the
scheduler's own list. -/
theorem C8_get_scheduled_jobs_returns_live_reference :
    ∀ (s : SchedulerObj) (h : JobHeap) (j : JobInfo),
      get_scheduled_jobs_ref s = s.scheduled_jobs_ref ∧
      heapRead (refAppend h (get_scheduled_jobs_ref s) j)
          s.scheduled_jobs_ref =
        heapRead h s.scheduled_jobs_ref ++ [j] := by
  intro s h j
  refine ⟨rfl, ?_⟩
  unfold refAppend heapWrite heapRead get_scheduled_jobs_ref
  simp

/-- C9 counterexample: two distinct jobs (different comment texts, the
second scheduled after the first was cancelled and removed) are
assigned the identical job id `"comment_0_36000"`, contradicting
process-lifetime id uniqueness. -/
theorem C9_cex_job_id_reused_after_removal :
    (schedule_comment SchedState.init 0 demoUrl "first" 1 600).2.job_id =
      some "comment_0_36000" ∧
    (schedule_comment
      (cancel_job (schedule_comment SchedState.init 0 demoUrl "first" 1
        600).1 "comment_0_36000").1
      0 demoUrl "second" 1 600).2.job_id = some "comment_0_36000" ∧
    ("first" : String) ≠ "second" := by
  refine ⟨rfl, by decide, by decide⟩

/-- C9 (amended): a job id is determined solely by the current live-job
count and the fire timestamp (`comment_{len}_{ts}`), both for the
returned id and for the stored job record — so ids are reissued whenever
a later `schedule_comment` call observes the same live count and fire
timestamp (for example after an earlier job was removed). -/
theorem C9_job_id_determined_by_count_and_timestamp :
    ∀ (st : SchedState) (now : Nat) (url text : String) (acct t : Nat),
      (schedule_comment st now url text acct t).2.job_id =
        some (mkJobId st.scheduled_jobs.length (t * 60)) ∧
      ((schedule_comment st now url text acct t).1.scheduled_jobs.map
        (fun j => j.id)) =
        (st.scheduled_jobs.map (fun j => j.id)) ++
          [mkJobId st.scheduled_jobs.length (t * 60)] := by
  intro st now url text acct t
  exact ⟨rfl, by simp [schedule_comment]⟩

/-- C10: the discovered-accounts dict is keyed by username: (a) its keys
are always distinct (at most one entry per username); (b) the value
retained for a username is the LAST complete slot carrying it (a later
slot silently overwrites an earlier one); (c) concretely, two distinct
complete slots sharing the username `alice` yield a single entry holding
the second slot's config, so the number of discovered accounts (1) is
strictly below the number of complete slots (2). -/
theorem C10_username_keyed_accounts_dict :
    (∀ (slots : List AccountConfig) (legacy : AccountConfig),
      (dictKeys (load_accounts_from_env slots legacy)).Nodup) ∧
    (∀ (slots : List AccountConfig) (name : String),
      dictGet (buildAccounts slots) name =
        (slots.filter (completeWithName name)).getLast?) ∧
    load_accounts_from_env [cfgAlice, cfgAlice2] emptyConfig =
      [("alice", cfgAlice2)] ∧
    (load_accounts_from_env [cfgAlice, cfgAlice2] emptyConfig).length <
      ([cfgAlice, cfgAlice2].filter (fun c => c.complete)).length := by
  refine ⟨?_, buildAccounts_get_lastWins, by decide, by decide⟩
  intro slots legacy
  unfold load_accounts_from_env
  by_cases hemp : (buildAccounts slots).isEmpty = true
  · rw [if_pos hemp]
    by_cases hleg : legacy.complete = true
    · rw [if_pos hleg]
      simp [dictKeys]
    · rw [if_neg hleg]
      simp [dictKeys]
  · rw [if_neg hemp]
    exact buildAccounts_keys_nodup slots

end GrowthicReddit
